import Mathlib

/-!
Verification of the reward/termination/reset logic of the air-hockey
"prepare" task (mushroom_rl/environments/pybullet_envs/air_hockey/prepare.py).
The class AirHockeyPrepare is embedded shallowly: its per-instance state is a
record, its methods are functions of that record plus the simulation-state
snapshot they read (puck position/velocity, end-effector position, contact
counts), and the numpy float arithmetic is modelled over the reals.
-/

namespace AirHockey

/-- A planar vector, standing for the 2-d numpy arrays of the source
(puck position, puck velocity, end-effector position). -/
structure Vec2 where
  x : ℝ
  y : ℝ

/-- Componentwise difference of two planar vectors. -/
def Vec2.sub (a b : Vec2) : Vec2 := ⟨a.x - b.x, a.y - b.y⟩

/-- np.linalg.norm of a planar vector: the Euclidean norm. -/
noncomputable def Vec2.norm (v : Vec2) : ℝ := Real.sqrt (v.x ^ 2 + v.y ^ 2)

/-- Division of a planar vector by a scalar, componentwise (numpy broadcast). -/
noncomputable def Vec2.div (v : Vec2) (d : ℝ) : Vec2 := ⟨v.x / d, v.y / d⟩

/-- The @ product of two planar vectors. -/
def Vec2.dot (a b : Vec2) : ℝ := a.x * b.x + a.y * b.y

/-- np.clip: v clamped into the interval [lo, hi]. -/
noncomputable def clip (v lo hi : ℝ) : ℝ := min (max v lo) hi

/-- np.copysign on reals: the magnitude of a carrying the sign of b; a
nonnegative b (zero included) gives |a|, as numpy gives on +0.0. -/
noncomputable def copysign (a b : ℝ) : ℝ := if b < 0 then -|a| else |a|

/-- np.linalg.norm of the action array (any length). -/
noncomputable def vecNorm (l : List ℝ) : ℝ := Real.sqrt (l.map (fun t => t ^ 2)).sum

/-- Mutable per-instance state of the AirHockeyPrepare class: the
construction-time configuration together with the two sticky contact flags
and the logged sampled puck position. init_state stands for the parent
environment's configured initial joint state vector. -/
structure AirHockeyPrepare where
  sub_problem : String
  random_init : Bool
  action_penalty : ℝ
  start_range : Option ((ℝ × ℝ) × (ℝ × ℝ))
  desired_point : Vec2
  ee_end_pos : Vec2
  init_state : List ℝ
  has_hit : Bool
  has_bounce : Bool
  puck_pos : Option Vec2

/-- Puck start range of sub_problem "side": x in [-0.8, -0.4], y in
[0.25, 0.46]. -/
noncomputable def sideStartRange : (ℝ × ℝ) × (ℝ × ℝ) := ((-0.8, -0.4), (0.25, 0.46))

/-- Puck start range of sub_problem "bottom": x in [-0.9, -0.8], y in
[0.125, 0.46]. -/
noncomputable def bottomStartRange : (ℝ × ℝ) × (ℝ × ℝ) := ((-0.9, -0.8), (0.125, 0.46))

/-- AirHockeyPrepare.__init__: stores the options, resolves the start range
from sub_problem by a two-way if/elif (anything unrecognised keeps None),
fixes the end-effector reference position, and clears both contact flags. -/
noncomputable def init (sub_problem : String) (random_init : Bool) (action_penalty : ℝ)
    (init_state : List ℝ) : AirHockeyPrepare where
  sub_problem := sub_problem
  random_init := random_init
  action_penalty := action_penalty
  start_range :=
    if sub_problem = "side" then some sideStartRange
    else if sub_problem = "bottom" then some bottomStartRange
    else none
  desired_point := ⟨-0.6, 0⟩
  ee_end_pos := ⟨-0.810001913, -0.00000143459494⟩
  init_state := init_state
  has_hit := false
  has_bounce := false
  puck_pos := none

/-- Observable effect of AirHockeyPrepare.setup on the simulation and on the
instance: where the puck body is placed (position and orientation
quaternion), the values the actuated joints are reset to (joint i gets entry
i), and the updated instance state. -/
structure SetupEffect where
  puck_start : Vec2
  desired_point : Vec2
  puck_body_pos : ℝ × ℝ × ℝ
  puck_body_orientation : ℝ × ℝ × ℝ × ℝ
  joint_states : List ℝ
  new_self : AirHockeyPrepare

/-- AirHockeyPrepare.setup: samples or fixes the puck start from start_range
(the random draw u in the unit square and the y-sign flip are passed in as
the oracle of np.random), records the target point, places the puck at
height -0.189 with identity orientation, resets the joints to init_state and
clears both flags. With start_range = None the numpy indexing fails, so the
result is none. -/
noncomputable def setup (self : AirHockeyPrepare) (u : ℝ × ℝ) (flip_y : Bool) :
    Option SetupEffect :=
  match self.start_range with
  | none => none
  | some ((x0, x1), (y0, y1)) =>
    let puck : Vec2 :=
      if self.random_init = true then
        ⟨(u.1 * (x1 - x0) + x0) * 1, (u.2 * (y1 - y0) + y0) * (if flip_y then -1 else 1)⟩
      else
        ⟨(x0 + x1) / 2, (y0 + y1) / 2⟩
    some
      { puck_start := puck
        desired_point := ⟨puck.x, 0⟩
        puck_body_pos := (puck.x, puck.y, -0.189)
        puck_body_orientation := (0, 0, 0, 1)
        joint_states := self.init_state
        new_self :=
          { self with
            desired_point := ⟨puck.x, 0⟩
            puck_pos := if self.random_init = true then some puck else self.puck_pos
            has_hit := false
            has_bounce := false } }

/-- AirHockeyPrepare.reward: the piecewise reward, branching on sub_problem,
on the absorbing flag and on has_hit, with puck position/velocity and
end-effector position read from the post-step state. -/
noncomputable def reward (self : AirHockeyPrepare) (puck_pos puck_vel ee_pos : Vec2)
    (action : List ℝ) (absorbing : Bool) : ℝ :=
  if self.sub_problem = "side" then
    if absorbing = true ∧ |puck_pos.y| < 0.47 then
      100 * Real.exp (-2 * puck_vel.norm)
    else
      let r :=
        if self.has_hit = true then
          if puck_pos.x < -0.35 ∧ |puck_pos.y| < 0.47 then
            let r_vel_x := max 0 (1 - 10 * (Real.exp |puck_vel.x| - 1))
            let dist_ee_des := (ee_pos.sub self.ee_end_pos).norm
            let r_ee := 0.5 - dist_ee_des
            r_vel_x + r_ee + 1
          else 0
        else
          let dist_ee_puck := (puck_pos.sub ee_pos).norm
          let vec_ee_puck := (puck_pos.sub ee_pos).div dist_ee_puck
          let cos_ang := clip (vec_ee_puck.dot ⟨0, copysign 1 puck_pos.y⟩) 0 1
          Real.exp (-8 * (dist_ee_puck - 0.08)) * cos_ang ^ 2
      r - self.action_penalty * vecNorm action
  else
    if absorbing = true ∧ puck_pos.x ≥ -0.6 then
      100 * Real.exp (-2 * puck_vel.norm)
    else
      let r :=
        if self.has_hit = true then
          if (-0.6 > puck_pos.x ∧ puck_pos.x > -0.9) ∧ |puck_pos.y| < 0.47 then
            let sig : ℝ := 0.1
            let r_x := 1 / (Real.sqrt (2 * Real.pi) * sig) *
              Real.exp (-(((puck_pos.x + 0.75) / sig) ^ 2) / 2)
            let r_y := 2 - |puck_vel.y|
            let dist_ee_des := (ee_pos.sub self.ee_end_pos).norm
            let r_ee := 0.5 * Real.exp (-3 * dist_ee_des)
            r_x + r_y + r_ee + 1
          else 0
        else
          let dist_ee_puck := (puck_pos.sub ee_pos).norm
          let vec_ee_puck := (puck_pos.sub ee_pos).div dist_ee_puck
          let cos_ang_side := clip (vec_ee_puck.dot ⟨0.2, copysign 0.8 puck_pos.y⟩) 0 1
          let cos_ang_bottom := clip (vec_ee_puck.dot ⟨-1, 0⟩) 0 1
          let cos_ang := max cos_ang_side cos_ang_bottom
          Real.exp (-8 * (dist_ee_puck - 0.08)) * cos_ang ^ 2
      r - self.action_penalty * vecNorm action

/-- AirHockeyPrepare.is_absorbing: defer to the parent check (passed in as
base_absorbing); then for "side" terminate after a hit once the puck crossed
x = 0 or the centerline band, else once any rim bounce happened; for every
other sub_problem the same hit condition, but rim bounces never terminate. -/
def is_absorbing (self : AirHockeyPrepare) (base_absorbing : Bool) (puck_pos : Vec2) :
    Prop :=
  if base_absorbing = true then True
  else if self.sub_problem = "side" then
    (self.has_hit = true ∧ (puck_pos.x > 0 ∨ |puck_pos.y| < 0.01)) ∨ self.has_bounce = true
  else
    self.has_hit = true ∧ (puck_pos.x > 0 ∨ |puck_pos.y| < 0.01)

/-- Contact counts the post-step hook reads from the physics client: puck
against the striker end-effector link, and puck against each of the four
rim segments. -/
structure ContactCounts where
  striker_ee : ℕ
  t_up_rim_l : ℕ
  t_up_rim_r : ℕ
  t_down_rim_l : ℕ
  t_down_rim_r : ℕ

/-- AirHockeyPrepare._simulation_post_step: latch has_hit when a
puck/striker contact is seen, latch has_bounce when the summed rim contact
count is positive; each query is skipped once its flag is already true. -/
def simulation_post_step (self : AirHockeyPrepare) (c : ContactCounts) : AirHockeyPrepare :=
  let self1 :=
    if self.has_hit = false then
      if c.striker_ee > 0 then { self with has_hit := true } else self
    else self
  if self1.has_bounce = false then
    if c.t_up_rim_l + c.t_up_rim_r + c.t_down_rim_l + c.t_down_rim_r > 0 then
      { self1 with has_bounce := true }
    else self1
  else self1

/-- Latch equation of the has_hit flag under one post-step update. -/
theorem post_step_has_hit (self : AirHockeyPrepare) (c : ContactCounts) :
    (simulation_post_step self c).has_hit = (self.has_hit || decide (0 < c.striker_ee)) := by
  unfold simulation_post_step
  cases hh : self.has_hit <;> cases hb : self.has_bounce <;>
    by_cases h1 : 0 < c.striker_ee <;>
    by_cases h2 : 0 < c.t_up_rim_l + c.t_up_rim_r + c.t_down_rim_l + c.t_down_rim_r <;>
    simp [h1, h2, hh, hb]

/-- Latch equation of the has_bounce flag under one post-step update. -/
theorem post_step_has_bounce (self : AirHockeyPrepare) (c : ContactCounts) :
    (simulation_post_step self c).has_bounce =
      (self.has_bounce ||
        decide (0 < c.t_up_rim_l + c.t_up_rim_r + c.t_down_rim_l + c.t_down_rim_r)) := by
  unfold simulation_post_step
  cases hh : self.has_hit <;> cases hb : self.has_bounce <;>
    by_cases h1 : 0 < c.striker_ee <;>
    by_cases h2 : 0 < c.t_up_rim_l + c.t_up_rim_r + c.t_down_rim_l + c.t_down_rim_r <;>
    simp [h1, h2, hh, hb]

/-- Post-step update touches nothing but the two flags. -/
theorem post_step_frame (self : AirHockeyPrepare) (c : ContactCounts) :
    (simulation_post_step self c).sub_problem = self.sub_problem ∧
    (simulation_post_step self c).action_penalty = self.action_penalty ∧
    (simulation_post_step self c).puck_pos = self.puck_pos := by
  unfold simulation_post_step
  cases hh : self.has_hit <;> cases hb : self.has_bounce <;>
    by_cases h1 : 0 < c.striker_ee <;>
    by_cases h2 : 0 < c.t_up_rim_l + c.t_up_rim_r + c.t_down_rim_l + c.t_down_rim_r <;>
    simp [h1, h2, hh, hb]

/-- C1: for sub_problem "side", whenever reward is called with absorbing true
and the post-step puck position satisfying |puck_y| < 0.47, the result is
100 * exp (-2 * ||puck_velocity||) exactly, for every has_hit flag and every
action, with no action penalty subtracted. -/
theorem C1_side_absorbing_bonus (self : AirHockeyPrepare) (p v e : Vec2) (a : List ℝ)
    (hside : self.sub_problem = "side") (hy : |p.y| < 0.47) :
    reward self p v e a true = 100 * Real.exp (-2 * v.norm) := by
  simp [reward, hside, hy]

/-- C1 witness: the absorbing bonus at a concrete side-regime state with
has_hit arbitrary-but-fixed false, puck at (-0.6, 0.1) and one-component
action. -/
theorem C1_side_absorbing_bonus_witness :
    reward (init "side" false (1 / 1000) []) ⟨-0.6, 0.1⟩ ⟨0, 0⟩ ⟨-0.7, 0⟩ [3] true =
      100 * Real.exp (-2 * Vec2.norm ⟨0, 0⟩) :=
  C1_side_absorbing_bonus (init "side" false (1 / 1000) []) ⟨-0.6, 0.1⟩ ⟨0, 0⟩ ⟨-0.7, 0⟩ [3]
    rfl (by norm_num [Vec2.y, abs_lt])

/-- C2: is_absorbing is true exactly when the parent check fires, or, for
sub_problem "side", when has_hit holds and the puck crossed x = 0 or the
centerline band, or any rim bounce has happened; for sub_problem "bottom"
the same, except that a rim bounce alone never terminates. -/
theorem C2_is_absorbing_characterisation (self : AirHockeyPrepare) (base : Bool)
    (p : Vec2) :
    (self.sub_problem = "side" →
      (is_absorbing self base p ↔
        base = true ∨ (self.has_hit = true ∧ (p.x > 0 ∨ |p.y| < 0.01)) ∨
          self.has_bounce = true)) ∧
    (self.sub_problem = "bottom" →
      (is_absorbing self base p ↔
        base = true ∨ (self.has_hit = true ∧ (p.x > 0 ∨ |p.y| < 0.01)))) := by
  constructor <;> intro hsub <;> cases base <;> simp [is_absorbing, hsub]

/-- C3: both contact flags are false immediately after setup; one post-step
update leaves each flag the OR of its old value and the observation of a
fresh contact (so each is monotone, is set only by an observed contact, and
is never cleared); and a second update with no new contacts changes
nothing. -/
theorem C3_flag_invariants (self : AirHockeyPrepare) (u : ℝ × ℝ) (fl : Bool)
    (c : ContactCounts) (eff : SetupEffect) :
    (setup self u fl = some eff →
      eff.new_self.has_hit = false ∧ eff.new_self.has_bounce = false) ∧
    (simulation_post_step self c).has_hit = (self.has_hit || decide (0 < c.striker_ee)) ∧
    (simulation_post_step self c).has_bounce =
      (self.has_bounce ||
        decide (0 < c.t_up_rim_l + c.t_up_rim_r + c.t_down_rim_l + c.t_down_rim_r)) ∧
    simulation_post_step (simulation_post_step self c) ⟨0, 0, 0, 0, 0⟩ =
      simulation_post_step self c := by
  refine ⟨?_, post_step_has_hit self c, post_step_has_bounce self c, ?_⟩
  · rcases hsr : self.start_range with _ | ⟨⟨x0, x1⟩, y0, y1⟩ <;> intro h
    · simp [setup, hsr] at h
    · simp [setup, hsr] at h
      simp [← h]
  · unfold simulation_post_step
    cases hh : self.has_hit <;> cases hb : self.has_bounce <;>
      by_cases h1 : 0 < c.striker_ee <;>
      by_cases h2 : 0 < c.t_up_rim_l + c.t_up_rim_r + c.t_down_rim_l + c.t_down_rim_r <;>
      simp [h1, h2, hh, hb]

/-- C9: reward never reads has_bounce: two instance states differing only in
that flag give the same reward on every input. -/
theorem C9_reward_ignores_has_bounce (self : AirHockeyPrepare) (b : Bool) (p v e : Vec2)
    (a : List ℝ) (ab : Bool) :
    reward { self with has_bounce := b } p v e a ab = reward self p v e a ab := rfl

/-- C4: for sub_problem "side", off the absorbing-bonus path and after a hit,
the reward is the velocity/end-effector shaping plus 1 when the puck sits in
x < -0.35, |y| < 0.47, and 0 otherwise; in both cases the action penalty is
subtracted. -/
theorem C4_side_post_hit (self : AirHockeyPrepare) (p v e : Vec2) (a : List ℝ)
    (ab : Bool) (hside : self.sub_problem = "side")
    (hnb : ¬(ab = true ∧ |p.y| < 0.47)) (hhit : self.has_hit = true) :
    (p.x < -0.35 ∧ |p.y| < 0.47 →
      reward self p v e a ab =
        max 0 (1 - 10 * (Real.exp |v.x| - 1)) + (0.5 - (e.sub self.ee_end_pos).norm) + 1
          - self.action_penalty * vecNorm a) ∧
    (¬(p.x < -0.35 ∧ |p.y| < 0.47) →
      reward self p v e a ab = 0 - self.action_penalty * vecNorm a) := by
  constructor <;> intro h
  · have hab : ¬ab = true := fun habt => hnb ⟨habt, h.2⟩
    simp [reward, hside, hab, hhit, h]
  · simp [reward, hside, hnb, hhit, h]

/-- C4 witness: the out-of-region case at puck x = -0.2 gives exactly 0 minus
the action penalty. -/
theorem C4_side_post_hit_witness :
    reward { init "side" false (1 / 1000) [] with has_hit := true }
        ⟨-0.2, 0.1⟩ ⟨0, 0⟩ ⟨-0.7, 0⟩ [3] false =
      0 - ({ init "side" false (1 / 1000) [] with has_hit := true} : AirHockeyPrepare).action_penalty * vecNorm [3] :=
  (C4_side_post_hit { init "side" false (1 / 1000) [] with has_hit := true }
      ⟨-0.2, 0.1⟩ ⟨0, 0⟩ ⟨-0.7, 0⟩ [3] false rfl (by simp) rfl).2
    (by norm_num [Vec2.x])

/-- C5: for sub_problem "side", off the absorbing-bonus path and before any
hit, the reward is the proximity term exp (-8 * (d - 0.08)) times the squared
clipped alignment of the end-effector-to-puck direction with (0, copysign 1
puck_y), minus the action penalty; at puck (-0.7, 0.3) and end-effector
(-0.7, 0.08) the pre-penalty value is exp (-1.12). -/
theorem C5_side_pre_hit (self : AirHockeyPrepare) (hside : self.sub_problem = "side")
    (hhit : self.has_hit = false) :
    (∀ (p v e : Vec2) (a : List ℝ) (ab : Bool), ¬(ab = true ∧ |p.y| < 0.47) →
      reward self p v e a ab =
        Real.exp (-8 * ((p.sub e).norm - 0.08)) *
            clip (((p.sub e).div (p.sub e).norm).dot ⟨0, copysign 1 p.y⟩) 0 1 ^ 2
          - self.action_penalty * vecNorm a) ∧
    (∀ (v : Vec2) (a : List ℝ),
      reward self ⟨-0.7, 0.3⟩ v ⟨-0.7, 0.08⟩ a false =
        Real.exp (-1.12) - self.action_penalty * vecNorm a) := by
  have hmain : ∀ (p v e : Vec2) (a : List ℝ) (ab : Bool), ¬(ab = true ∧ |p.y| < 0.47) →
      reward self p v e a ab =
        Real.exp (-8 * ((p.sub e).norm - 0.08)) *
            clip (((p.sub e).div (p.sub e).norm).dot ⟨0, copysign 1 p.y⟩) 0 1 ^ 2
          - self.action_penalty * vecNorm a := by
    intro p v e a ab hnb
    simp [reward, hside, hnb, hhit]
  refine ⟨hmain, fun v a => ?_⟩
  rw [hmain ⟨-0.7, 0.3⟩ v ⟨-0.7, 0.08⟩ a false (by simp)]
  have hsub : Vec2.sub ⟨-0.7, 0.3⟩ ⟨-0.7, 0.08⟩ = ⟨0, 0.22⟩ := by
    unfold Vec2.sub
    norm_num
  have hnorm : Vec2.norm ⟨0, 0.22⟩ = 0.22 := by
    unfold Vec2.norm
    rw [show (0 : ℝ) ^ 2 + 0.22 ^ 2 = 0.22 ^ 2 by norm_num,
      Real.sqrt_sq (by norm_num)]
  rw [hsub, hnorm]
  have hdot : Vec2.dot (Vec2.div ⟨0, 0.22⟩ 0.22) ⟨0, copysign 1 (Vec2.y ⟨-0.7, 0.3⟩)⟩ = 1 := by
    unfold Vec2.dot Vec2.div copysign
    norm_num
  rw [hdot]
  have hclip : clip 1 0 1 = 1 := by
    unfold clip
    norm_num
  rw [hclip]
  norm_num

/-- C5 witness: the concrete pre-hit shaping value exp (-1.12) at the state of
the claim, under a fresh side-regime instance. -/
theorem C5_side_pre_hit_witness :
    reward (init "side" false (1 / 1000) []) ⟨-0.7, 0.3⟩ ⟨0, 0⟩ ⟨-0.7, 0.08⟩ [3] false =
      Real.exp (-1.12) - (init "side" false (1 / 1000) []).action_penalty * vecNorm [3] :=
  (C5_side_pre_hit (init "side" false (1 / 1000) []) rfl rfl).2 ⟨0, 0⟩ [3]

/-- C6: for sub_problem "bottom", the reward is piecewise: the absorbing bonus
100 * exp (-2 * ||v||) with no penalty once the puck reached x >= -0.6; after
a hit inside -0.9 < x < -0.6, |y| < 0.47 the Gaussian-in-x term centred at
-0.75 plus 2 - |v_y| plus the end-effector term plus 1; after a hit outside
that region 0; before a hit the proximity term times the squared best of the
two clipped alignments; the penalty is subtracted on every non-absorbing
path; and the Gaussian term is maximal at x = -0.75. -/
theorem C6_bottom_reward (self : AirHockeyPrepare) (hsub : self.sub_problem = "bottom") :
    (∀ (p v e : Vec2) (a : List ℝ), p.x ≥ -0.6 →
      reward self p v e a true = 100 * Real.exp (-2 * v.norm)) ∧
    (∀ (p v e : Vec2) (a : List ℝ) (ab : Bool), ¬(ab = true ∧ p.x ≥ -0.6) →
      self.has_hit = true →
      ((-0.9 < p.x ∧ p.x < -0.6) ∧ |p.y| < 0.47 →
        reward self p v e a ab =
          1 / (Real.sqrt (2 * Real.pi) * 0.1) * Real.exp (-(((p.x + 0.75) / 0.1) ^ 2) / 2)
            + (2 - |v.y|) + 0.5 * Real.exp (-3 * (e.sub self.ee_end_pos).norm) + 1
            - self.action_penalty * vecNorm a) ∧
      (¬((-0.9 < p.x ∧ p.x < -0.6) ∧ |p.y| < 0.47) →
        reward self p v e a ab = 0 - self.action_penalty * vecNorm a)) ∧
    (∀ (p v e : Vec2) (a : List ℝ) (ab : Bool), ¬(ab = true ∧ p.x ≥ -0.6) →
      self.has_hit = false →
      reward self p v e a ab =
        Real.exp (-8 * ((p.sub e).norm - 0.08)) *
            max (clip (((p.sub e).div (p.sub e).norm).dot ⟨0.2, copysign 0.8 p.y⟩) 0 1)
              (clip (((p.sub e).div (p.sub e).norm).dot ⟨-1, 0⟩) 0 1) ^ 2
          - self.action_penalty * vecNorm a) ∧
    (∀ x : ℝ,
      1 / (Real.sqrt (2 * Real.pi) * 0.1) * Real.exp (-(((x + 0.75) / 0.1) ^ 2) / 2) ≤
        1 / (Real.sqrt (2 * Real.pi) * 0.1) *
          Real.exp (-((((-0.75 : ℝ) + 0.75) / 0.1) ^ 2) / 2)) := by
  have hns : ¬self.sub_problem = "side" := by simp [hsub]
  refine ⟨?_, ?_, ?_, ?_⟩
  · intro p v e a hx
    simp [reward, hns, hx]
  · intro p v e a ab hnb hhit
    constructor <;> intro h
    · have hc : -0.6 > p.x ∧ p.x > -0.9 := ⟨h.1.2, h.1.1⟩
      simp [reward, hns, hnb, hhit, hc, h.2]
    · have hc : ¬((-0.6 > p.x ∧ p.x > -0.9) ∧ |p.y| < 0.47) := by
        intro hh
        exact h ⟨⟨hh.1.2, hh.1.1⟩, hh.2⟩
      simp [reward, hns, hnb, hhit, hc]
  · intro p v e a ab hnb hhit
    simp [reward, hns, hnb, hhit]
  · intro x
    have hfac : (0 : ℝ) ≤ 1 / (Real.sqrt (2 * Real.pi) * 0.1) := by positivity
    refine mul_le_mul_of_nonneg_left (Real.exp_le_exp.mpr ?_) hfac
    have h1 : -(((x + 0.75) / 0.1) ^ 2) / 2 ≤ 0 := by
      nlinarith [sq_nonneg ((x + 0.75) / 0.1)]
    have h2 : -((((-0.75 : ℝ) + 0.75) / 0.1) ^ 2) / 2 = 0 := by norm_num
    rw [h2]
    exact h1

/-- C6 witness: the absorbing bonus at a concrete bottom-regime state with the
puck at (-0.5, 0.1). -/
theorem C6_bottom_reward_witness :
    reward (init "bottom" false (1 / 1000) []) ⟨-0.5, 0.1⟩ ⟨0, 0⟩ ⟨-0.7, 0⟩ [3] true =
      100 * Real.exp (-2 * Vec2.norm ⟨0, 0⟩) :=
  (C6_bottom_reward (init "bottom" false (1 / 1000) []) rfl).1
    ⟨-0.5, 0.1⟩ ⟨0, 0⟩ ⟨-0.7, 0⟩ [3] (by norm_num [Vec2.x])

/-- C7: with random initialization disabled, setup uses the midpoint of the
configured ranges as the puck start, targets (puck_x, 0), places the puck at
(puck_x, puck_y, -0.189) with identity orientation, and resets the joints to
the configured initial joint state vector. -/
theorem C7_setup_deterministic (self : AirHockeyPrepare) (u : ℝ × ℝ) (fl : Bool)
    (x0 x1 y0 y1 : ℝ) (hr : self.random_init = false)
    (hs : self.start_range = some ((x0, x1), (y0, y1))) :
    setup self u fl = some
      { puck_start := ⟨(x0 + x1) / 2, (y0 + y1) / 2⟩
        desired_point := ⟨(x0 + x1) / 2, 0⟩
        puck_body_pos := ((x0 + x1) / 2, (y0 + y1) / 2, -0.189)
        puck_body_orientation := (0, 0, 0, 1)
        joint_states := self.init_state
        new_self :=
          { self with
            desired_point := ⟨(x0 + x1) / 2, 0⟩
            has_hit := false
            has_bounce := false } } := by
  simp [setup, hs, hr]

/-- C7 witness: the deterministic reset of a fresh side-regime instance
places the puck at the midpoint (-0.6, 0.355). -/
theorem C7_setup_deterministic_witness :
    setup (init "side" false (1 / 1000) [0, 1]) (0.3, 0.4) false = some
      { puck_start := ⟨(-0.8 + -0.4) / 2, (0.25 + 0.46) / 2⟩
        desired_point := ⟨(-0.8 + -0.4) / 2, 0⟩
        puck_body_pos := ((-0.8 + -0.4) / 2, (0.25 + 0.46) / 2, -0.189)
        puck_body_orientation := (0, 0, 0, 1)
        joint_states := (init "side" false (1 / 1000) [0, 1]).init_state
        new_self :=
          { init "side" false (1 / 1000) [0, 1] with
            desired_point := ⟨(-0.8 + -0.4) / 2, 0⟩
            has_hit := false
            has_bounce := false } } :=
  C7_setup_deterministic (init "side" false (1 / 1000) [0, 1]) (0.3, 0.4) false
    (-0.8) (-0.4) 0.25 0.46 rfl rfl

/-- C8: the pre-hit shaping has no guard for coinciding puck and end-effector
positions; the source divides by the zero distance. In this total-division
embedding (x / 0 = 0) the branch then degenerates to alignment 0 and returns
just the negated action penalty instead of any capped peak value, for every
coincident pair; in numpy the same unguarded division yields NaN. -/
theorem C8_pre_hit_unguarded_at_zero_distance (pen : ℝ) (p v : Vec2) (a : List ℝ) :
    reward (init "side" false pen []) p v p a false = 0 - pen * vecNorm a := by
  have hz : Vec2.sub p p = ⟨0, 0⟩ := by
    unfold Vec2.sub
    simp
  have hn : Vec2.norm ⟨0, 0⟩ = 0 := by
    unfold Vec2.norm
    simp
  simp [reward, init, hz, hn, Vec2.div, Vec2.dot, clip]

/-- C10: every sub_problem other than "side" takes the "bottom" branches of
both reward and is_absorbing (the dispatch is a two-way if/else), the
constructor stores it without complaint, and for values that are neither
"side" nor "bottom" the start range is left unset. -/
theorem C10_unrecognised_sub_problem (sub : String) (hns : sub ≠ "side") :
    (∀ (self : AirHockeyPrepare), self.sub_problem = sub →
      ∀ (p v e : Vec2) (a : List ℝ) (ab : Bool),
        reward self p v e a ab = reward { self with sub_problem := "bottom" } p v e a ab) ∧
    (∀ (self : AirHockeyPrepare), self.sub_problem = sub →
      ∀ (base : Bool) (p : Vec2),
        (is_absorbing self base p ↔ is_absorbing { self with sub_problem := "bottom" } base p)) ∧
    (∀ (random_init : Bool) (action_penalty : ℝ) (init_state : List ℝ),
      (init sub random_init action_penalty init_state).sub_problem = sub ∧
      (sub ≠ "bottom" →
        (init sub random_init action_penalty init_state).start_range = none)) := by
  refine ⟨?_, ?_, ?_⟩
  · intro self hsub p v e a ab
    simp [reward, hsub, hns]
  · intro self hsub base p
    cases base <;> simp [is_absorbing, hsub, hns]
  · intro random_init action_penalty init_state
    refine ⟨rfl, fun hnb => ?_⟩
    simp [init, hns, hnb]

/-- C10 witness: sub_problem "top" is accepted, stored, and leaves the start
range unset. -/
theorem C10_unrecognised_sub_problem_witness :
    (init "top" false 0 []).sub_problem = "top" ∧
      (init "top" false 0 []).start_range = none :=
  ⟨((C10_unrecognised_sub_problem "top" (by decide)).2.2 false 0 []).1,
    ((C10_unrecognised_sub_problem "top" (by decide)).2.2 false 0 []).2 (by decide)⟩

end AirHockey
